import Mathlib

/-!
Verification of the cotton-cloud backend's ephemeral image cache and
AI-orchestration layer (Go sources: `internal/services` image cache and
Gemini service, `internal/api/handlers/ai.go`).

Shallow embedding conventions:
* the Go `map[string]*CacheEntry` guarded by a mutex is modelled as a
  function `String → Option CacheEntry`; every public operation holds the
  lock for its whole body, so each operation is one atomic state
  transformation;
* `time.Now()` and the random id from `generateCacheID` are oracle
  parameters (`now : Int` in nanoseconds, `freshID : String`);
* calls into the external `genai` client are oracle parameters of type
  `Except String GenResponse` (an `error` return or a response value);
* `encoding/json.Unmarshal` into `ClothingAnalysis` is an oracle parameter
  `jsonParse : String → Option ClothingAnalysis`;
* `encoding/base64` std decoding/encoding is implemented faithfully
  (padding required, input length a multiple of four, carriage returns and
  line feeds ignored, no data after padding).
-/

/-- Value of one character of the std base64 alphabet, as in Go's
`encoding/base64` StdEncoding table `A-Za-z0-9+/`. -/
def b64Val (c : Char) : Option Nat :=
  if 'A' ≤ c ∧ c ≤ 'Z' then some (c.toNat - 65)
  else if 'a' ≤ c ∧ c ≤ 'z' then some (c.toNat - 71)
  else if '0' ≤ c ∧ c ≤ '9' then some (c.toNat + 4)
  else if c = '+' then some 62
  else if c = '/' then some 63
  else none

/-- Decode a stream of four-character base64 quanta with std padding, as
Go's `base64.StdEncoding.Decode`: a final quantum may end in one or two
padding characters, padding may not be followed by further data, and an
input whose length is not a multiple of four is corrupt. -/
def decodeQuanta : List Char → Option (List Nat)
  | [] => some []
  | c1 :: c2 :: c3 :: c4 :: rest =>
    match b64Val c1, b64Val c2 with
    | some v1, some v2 =>
      if c3 = '=' then
        if c4 = '=' ∧ rest = [] then some [v1 * 4 + v2 / 16] else none
      else
        match b64Val c3 with
        | some v3 =>
          if c4 = '=' then
            if rest = [] then some [v1 * 4 + v2 / 16, v2 % 16 * 16 + v3 / 4] else none
          else
            match b64Val c4 with
            | some v4 =>
              match decodeQuanta rest with
              | some tl =>
                some ((v1 * 4 + v2 / 16) :: (v2 % 16 * 16 + v3 / 4) :: (v3 % 4 * 64 + v4) :: tl)
              | none => none
            | none => none
        | none => none
    | _, _ => none
  | _ => none

/-- Go `base64.StdEncoding.DecodeString` on a character list: carriage
returns and line feeds are ignored, everything else is decoded in strict
four-character quanta. `none` is the `CorruptInputError` case. -/
def stdBase64DecodeL (cs : List Char) : Option (List Nat) :=
  decodeQuanta (cs.filter (fun c => !(c == '\r' || c == '\n')))

/-- Go `base64.StdEncoding.DecodeString`. -/
def stdBase64Decode (s : String) : Option (List Nat) :=
  stdBase64DecodeL s.data

/-- Character of the std base64 alphabet for a six-bit value. -/
def b64Char (n : Nat) : Char :=
  if n < 26 then Char.ofNat (65 + n)
  else if n < 52 then Char.ofNat (97 + (n - 26))
  else if n < 62 then Char.ofNat (48 + (n - 52))
  else if n = 62 then '+' else '/'

/-- Go `base64.StdEncoding.EncodeToString` on a byte list, producing the
padded character list. -/
def stdBase64EncodeL : List Nat → List Char
  | [] => []
  | [b1] => [b64Char (b1 / 4 % 64), b64Char (b1 % 4 * 16), '=', '=']
  | [b1, b2] => [b64Char (b1 / 4 % 64), b64Char (b1 % 4 * 16 + b2 / 16), b64Char (b2 % 16 * 4), '=']
  | b1 :: b2 :: b3 :: rest =>
    b64Char (b1 / 4 % 64) :: b64Char (b1 % 4 * 16 + b2 / 16) ::
      b64Char (b2 % 16 * 4 + b3 / 64) :: b64Char (b3 % 64) :: stdBase64EncodeL rest

/-- Go `base64.StdEncoding.EncodeToString`. -/
def stdBase64Encode (bs : List Nat) : String :=
  String.mk (stdBase64EncodeL bs)

/-- Go `strings.Cut(s, ",")` restricted to what `decodeBase64Image` uses:
`some after` when the list contains a comma (`after` is everything past
the first comma), `none` when it does not. -/
def cutAfterComma : List Char → Option (List Char)
  | [] => none
  | c :: cs => if c = ',' then some cs else cutAfterComma cs

/-- Go helper `decodeBase64Image` (services/gemini.go) on a character
list: drop everything up to and including the first comma when one is
present (the data-URI header case), then std-base64 decode. -/
def decodeBase64ImageL (cs : List Char) : Option (List Nat) :=
  match cutAfterComma cs with
  | some after => stdBase64DecodeL after
  | none => stdBase64DecodeL cs

/-- Go helper `decodeBase64Image`. -/
def decodeBase64Image (s : String) : Option (List Nat) :=
  decodeBase64ImageL s.data

/-! ## The image cache (services/image_cache.go) -/

/-- Go `CacheEntry`: the staged original image, its MIME subtype, and the
`time.Now()` at which `Store` created it (nanoseconds). -/
structure CacheEntry where
  OriginalImageBase64 : String
  MimeType : String
  CreatedAt : Int
deriving Repr, DecidableEq

/-- Go `ImageCache`: the mutex-guarded `map[string]*CacheEntry`, as a
total function to `Option`. -/
def ImageCache : Type := String → Option CacheEntry

/-- Go `time.Minute` in nanoseconds. -/
def goMinute : Int := 60 * 1000000000

/-- Go `ImageCache.Store`: insert the entry under the freshly generated
cache id (the id from `generateCacheID` and the clock are oracle
parameters) and return the id. -/
def ImageCache.Store (c : ImageCache) (cacheID : String)
    (imageBase64 mimeType : String) (now : Int) : ImageCache × String :=
  (fun k => if k = cacheID then some ⟨imageBase64, mimeType, now⟩ else c k, cacheID)

/-- Go `ImageCache.Get`: plain map lookup; the entry's age is not
consulted and not refreshed. -/
def ImageCache.Get (c : ImageCache) (cacheID : String) : Option CacheEntry :=
  c cacheID

/-- Go `ImageCache.Delete`: remove the binding when present and report
whether anything was removed. -/
def ImageCache.Delete (c : ImageCache) (cacheID : String) : ImageCache × Bool :=
  match c cacheID with
  | some _ => (fun k => if k = cacheID then none else c k, true)
  | none => (c, false)

/-- Go `ImageCache.cleanup`: remove every entry with
`now.Sub(entry.CreatedAt) > 30 * time.Minute`. -/
def ImageCache.cleanup (c : ImageCache) (now : Int) : ImageCache :=
  fun id =>
    match c id with
    | some entry => if now - entry.CreatedAt > 30 * goMinute then none else some entry
    | none => none

/-! ## The Gemini provider client (services/gemini.go)

The `genai` network client is external: each `GenerateContent` call is an
oracle parameter of type `Except String GenResponse` (Go's `(resp, err)`
pair). Only the response structure the code inspects is modelled:
`resp.Candidates[i].Content.Parts`, where a part is a `genai.Text` or a
`genai.Blob`. -/

/-- A `genai.Blob` (binary part of a response). -/
structure Blob where
  Data : List Nat
deriving Repr, DecidableEq

/-- A `genai.Part` of a response candidate's content. -/
inductive RespPart where
  | text (s : String)
  | blob (b : Blob)
deriving Repr, DecidableEq

/-- A response candidate; Go's `candidate.Content.Parts` is flattened to
one field. -/
structure Candidate where
  Parts : List RespPart
deriving Repr, DecidableEq

/-- A `genai.GenerateContentResponse`. -/
structure GenResponse where
  Candidates : List Candidate
deriving Repr, DecidableEq

/-- Result of a Go function that may also panic (used for
`RefineClothingAnalysis`, which indexes `Candidates[0]` unguarded). -/
inductive GoResult (α : Type) where
  | ok (val : α)
  | err (msg : String)
  | panicked (msg : String)
deriving Repr, DecidableEq

/-- Go `ClothingAnalysis` (the structured analysis payload). -/
structure ClothingAnalysis where
  category : String
  color : String
  material : String
  description : String
  tags : List String
  style : List String
  season : List String
deriving Repr, DecidableEq

/-- Go helper `extractTextFromParts`: the first text part, or the empty
string when there is none. -/
def extractTextFromParts : List RespPart → String
  | [] => ""
  | RespPart.text s :: _ => s
  | RespPart.blob _ :: rest => extractTextFromParts rest

/-- First binary part of a part list, if any. -/
def firstBlob : List RespPart → Option Blob
  | [] => none
  | RespPart.text _ :: rest => firstBlob rest
  | RespPart.blob b :: _ => some b

/-- Go helper `extractImageFromResponse`: error when the response is nil
or has no candidate; otherwise the first binary part of the first
candidate, base64-encoded, or an error when there is no binary part. -/
def extractImageFromResponse (resp : Option GenResponse) : Except String String :=
  match resp with
  | none => Except.error "no response from AI"
  | some r =>
    match r.Candidates with
    | [] => Except.error "no response from AI"
    | cand :: _ =>
      match firstBlob cand.Parts with
      | some b => Except.ok (stdBase64Encode b.Data)
      | none => Except.error "no image generated"

/-- Go helper `cleanJSONResponse`: trim whitespace and strip a markdown
code fence around the JSON text. -/
def cleanJSONResponse (text : String) : String :=
  let text := text.trim
  let text := if text.startsWith "```json" then text.drop 7 else text
  let text := if text.startsWith "```" then text.drop 3 else text
  let text := if text.endsWith "```" then text.dropRight 3 else text
  text.trim

/-- Go `GeminiService.AnalyzeClothing`: decode the image, call the
analysis model (oracle `providerResp`), require a candidate with parts,
extract and clean the text, parse it (oracle `jsonParse` for
`json.Unmarshal`). -/
def GeminiService.AnalyzeClothing (imageBase64 : String)
    (providerResp : Except String GenResponse)
    (jsonParse : String → Option ClothingAnalysis) : GoResult ClothingAnalysis :=
  match decodeBase64Image imageBase64 with
  | none => GoResult.err "failed to decode base64 image"
  | some _ =>
    match providerResp with
    | Except.error e => GoResult.err ("failed to analyze image: " ++ e)
    | Except.ok resp =>
      match resp.Candidates with
      | [] => GoResult.err "no response from AI"
      | cand :: _ =>
        if cand.Parts = [] then GoResult.err "no response from AI"
        else
          match jsonParse (cleanJSONResponse (extractTextFromParts cand.Parts)) with
          | none => GoResult.err "failed to parse analysis"
          | some analysis => GoResult.ok analysis

/-- Go `GeminiService.RefineClothingAnalysis`: decode the image, call the
model with the feedback prompt (oracle `refineResp`); on a call error,
fall back to `AnalyzeClothing` (whose own call is oracle `analyzeResp`).
On success the code indexes `resp.Candidates[0]` without a length check,
so an empty candidate list is a runtime panic; a parse failure falls back
to `AnalyzeClothing`. -/
def GeminiService.RefineClothingAnalysis (imageBase64 userFeedback : String)
    (refineResp analyzeResp : Except String GenResponse)
    (jsonParse : String → Option ClothingAnalysis) : GoResult ClothingAnalysis :=
  match decodeBase64Image imageBase64 with
  | none => GoResult.err "failed to decode base64 image"
  | some _ =>
    match refineResp with
    | Except.error _ => GeminiService.AnalyzeClothing imageBase64 analyzeResp jsonParse
    | Except.ok resp =>
      match resp.Candidates with
      | [] => GoResult.panicked "index out of range"
      | cand :: _ =>
        match jsonParse (cleanJSONResponse (extractTextFromParts cand.Parts)) with
        | none => GeminiService.AnalyzeClothing imageBase64 analyzeResp jsonParse
        | some analysis => GoResult.ok analysis

/-- Go `GeminiService.GenerateCutout`: decode the image (data-URI header
stripped by `decodeBase64Image`), call the image model (oracle), extract
the first binary part. The second component records whether the provider
call was reached. -/
def GeminiService.GenerateCutout (imageBase64 : String)
    (providerResp : Except String GenResponse) : Except String String × Bool :=
  match decodeBase64Image imageBase64 with
  | none => (Except.error "failed to decode base64 image", false)
  | some _ =>
    match providerResp with
    | Except.error e => (Except.error ("failed to generate cutout: " ++ e), true)
    | Except.ok resp => (extractImageFromResponse (some resp), true)

/-- Go `GeminiService.GenerateCollage`: each item image is decoded with
raw `base64.StdEncoding.DecodeString` (no data-URI stripping); failing
items are skipped; with no decodable item the call fails before the
provider is reached. -/
def GeminiService.GenerateCollage (itemImagesBase64 : List String)
    (providerResp : Except String GenResponse) : Except String String :=
  let parts := itemImagesBase64.filterMap stdBase64Decode
  if parts = [] then Except.error "no valid images provided"
  else
    match providerResp with
    | Except.error e => Except.error ("failed to generate collage: " ++ e)
    | Except.ok resp => extractImageFromResponse (some resp)

/-- Go `GeminiService.VirtualTryOn`: the avatar image is decoded with raw
`base64.StdEncoding.DecodeString` (no data-URI stripping) and a decode
failure is an error; item images are likewise raw-decoded with failures
skipped (they only feed the opaque provider request). -/
def GeminiService.VirtualTryOn (avatarImageBase64 : String)
    (itemImagesBase64 : List String)
    (providerResp : Except String GenResponse) : Except String String :=
  match stdBase64Decode avatarImageBase64 with
  | none => Except.error "failed to decode avatar"
  | some _ =>
    let _itemParts := itemImagesBase64.filterMap stdBase64Decode
    match providerResp with
    | Except.error e => Except.error ("failed to generate try-on: " ++ e)
    | Except.ok resp => extractImageFromResponse (some resp)

/-! ## The AI handlers (internal/api/handlers/ai.go)

JSON binding happens before any cache or provider interaction and is not
modelled; handlers are modelled from the point where the request is
bound. `h.gemini == nil` is the `geminiConfigured = false` case. Each
handler result records the HTTP response, the cache state afterwards, and
whether the provider was called. -/

/-- Response of the generate-cutout endpoint. -/
inductive GenerateCutoutResponse where
  | success (imageBase64 cacheId message : String)
  | mock (message imageUrl cacheId : String)
  | serverError (error : String)
deriving Repr, DecidableEq

/-- HTTP status of a generate-cutout response. -/
def GenerateCutoutResponse.status : GenerateCutoutResponse → Nat
  | GenerateCutoutResponse.success .. => 200
  | GenerateCutoutResponse.mock .. => 200
  | GenerateCutoutResponse.serverError _ => 500

/-- Outcome of one run of the generate-cutout handler. -/
structure GenerateCutoutOutcome where
  response : GenerateCutoutResponse
  cache : ImageCache
  providerCalled : Bool

/-- Go `AIHandler.GenerateCutout`: stage the original in the cache, then
(unless Gemini is unconfigured, which yields the mock payload) run the
cutout service; on service error the just-created cache entry is deleted
and a 500 is returned; on success the image and the cache id are
returned. -/
def AIHandler.GenerateCutout (cache : ImageCache) (freshID : String) (now : Int)
    (geminiConfigured : Bool) (providerResp : Except String GenResponse)
    (imageBase64 mimeType : String) : GenerateCutoutOutcome :=
  let stored := ImageCache.Store cache freshID imageBase64 mimeType now
  let c1 := stored.1
  let cacheID := stored.2
  if geminiConfigured = false then
    ⟨GenerateCutoutResponse.mock "Cutout generation - Gemini not configured"
      "https://picsum.photos/400/600" cacheID, c1, false⟩
  else
    match GeminiService.GenerateCutout imageBase64 providerResp with
    | (Except.error e, called) =>
      ⟨GenerateCutoutResponse.serverError e, (ImageCache.Delete c1 cacheID).1, called⟩
    | (Except.ok img, called) =>
      ⟨GenerateCutoutResponse.success img cacheID "Cutout generated successfully", c1, called⟩

/-- Response of the refine-cutout endpoint. -/
inductive RefineCutoutResponse where
  | success (imageBase64 cacheId message : String)
  | mock (message imageBase64 cacheId : String)
  | cacheExpired (error : String)
  | serverError (error : String)
deriving Repr, DecidableEq

/-- HTTP status of a refine-cutout response. -/
def RefineCutoutResponse.status : RefineCutoutResponse → Nat
  | RefineCutoutResponse.success .. => 200
  | RefineCutoutResponse.mock .. => 200
  | RefineCutoutResponse.cacheExpired _ => 400
  | RefineCutoutResponse.serverError _ => 500

/-- Outcome of one run of the refine-cutout handler. -/
structure RefineCutoutOutcome where
  response : RefineCutoutResponse
  cache : ImageCache
  providerCalled : Bool

/-- Go `AIHandler.RefineCutout`: look the cache id up; on a miss return a
400 "Cache expired or not found. Please regenerate from original."
without touching the provider or the cache. On a hit, unless Gemini is
unconfigured (mock echo of the current cutout), run the refine service
(`GeminiService.RefineCutout` is not part of the sources in scope; its
`(string, error)` outcome is the oracle `refineOutcome`); errors become a
500, success returns the new image with the request's own cache id. The
handler never mutates the cache. -/
def AIHandler.RefineCutout (cache : ImageCache) (geminiConfigured : Bool)
    (refineOutcome : Except String String)
    (cacheID currentCutoutBase64 userFeedback mimeType : String) : RefineCutoutOutcome :=
  match ImageCache.Get cache cacheID with
  | none =>
    ⟨RefineCutoutResponse.cacheExpired "Cache expired or not found. Please regenerate from original.",
      cache, false⟩
  | some _entry =>
    if geminiConfigured = false then
      ⟨RefineCutoutResponse.mock "Cutout refinement - Gemini not configured"
        currentCutoutBase64 cacheID, cache, false⟩
    else
      match refineOutcome with
      | Except.error e => ⟨RefineCutoutResponse.serverError e, cache, true⟩
      | Except.ok img =>
        ⟨RefineCutoutResponse.success img cacheID "Cutout refined successfully", cache, true⟩

example : (ImageCache.Store (fun _ => none) "cafe" "img" "jpeg" 0).1 "cafe"
    = some ⟨"img", "jpeg", 0⟩ := by decide

/-! ## Claim theorems -/

/-- C4: after any execution of the sweep (`cleanup`) at time `now`, the
cache contains exactly the entries whose age at sweep time is at most 30
minutes: an entry with `now - CreatedAt > 30min` is removed (`Get`
returns not-found), an entry within the window is retained unchanged, and
no id absent before the sweep is present after it. -/
theorem cleanup_retains_exactly_unexpired (c : ImageCache) (now : Int) (id : String) :
    (∀ e, ImageCache.Get c id = some e →
      (now - e.CreatedAt > 30 * goMinute →
        ImageCache.Get (ImageCache.cleanup c now) id = none) ∧
      (now - e.CreatedAt ≤ 30 * goMinute →
        ImageCache.Get (ImageCache.cleanup c now) id = some e)) ∧
    (ImageCache.Get c id = none → ImageCache.Get (ImageCache.cleanup c now) id = none) := by
  refine ⟨fun e he => ⟨fun hexp => ?_, fun hle => ?_⟩, fun hnone => ?_⟩
  · show (match c id with
      | some entry => if now - entry.CreatedAt > 30 * goMinute then none else some entry
      | none => none) = none
    rw [show c id = some e from he]
    simp [hexp]
  · show (match c id with
      | some entry => if now - entry.CreatedAt > 30 * goMinute then none else some entry
      | none => none) = some e
    rw [show c id = some e from he]
    simp [not_lt.mpr hle]
  · show (match c id with
      | some entry => if now - entry.CreatedAt > 30 * goMinute then none else some entry
      | none => none) = none
    rw [show c id = none from hnone]

/-- Witness for C4: a concrete cache holding one entry created at time 0
and one missing id, swept at 31 minutes: the expired entry is gone and
the missing id stays missing; swept at 10 minutes the entry survives. -/
theorem cleanup_retains_exactly_unexpired_witness :
    ImageCache.Get
      (ImageCache.cleanup ((ImageCache.Store (fun _ => none) "a" "p" "jpeg" 0).1)
        (31 * goMinute)) "a" = none ∧
    ImageCache.Get
      (ImageCache.cleanup ((ImageCache.Store (fun _ => none) "a" "p" "jpeg" 0).1)
        (10 * goMinute)) "a" = some ⟨"p", "jpeg", 0⟩ ∧
    ImageCache.Get
      (ImageCache.cleanup ((ImageCache.Store (fun _ => none) "a" "p" "jpeg" 0).1)
        (31 * goMinute)) "b" = none :=
  ⟨((cleanup_retains_exactly_unexpired
      ((ImageCache.Store (fun _ => none) "a" "p" "jpeg" 0).1) (31 * goMinute) "a").1
        ⟨"p", "jpeg", 0⟩ (by decide)).1 (by decide),
   ((cleanup_retains_exactly_unexpired
      ((ImageCache.Store (fun _ => none) "a" "p" "jpeg" 0).1) (10 * goMinute) "a").1
        ⟨"p", "jpeg", 0⟩ (by decide)).2 (by decide),
   (cleanup_retains_exactly_unexpired
      ((ImageCache.Store (fun _ => none) "a" "p" "jpeg" 0).1) (31 * goMinute) "b").2
        (by decide)⟩

/-- C3 counterexample: visibility is NOT confined to the 30-minute
window. Trace (following the 5-minute tick schedule of `cleanupLoop`):
the cache is created and an entry stored at t = 0; sweeps run at 5, 10,
..., 30 minutes (at 30 minutes the age is not strictly greater than the
window, so the entry is kept — shown here for the final tick, whose
output state persists until the 35-minute tick); at t = 31 minutes, more
than 30 minutes after creation, `Get` still returns the entry, because
`Get` never checks age. -/
theorem entry_visible_after_window_counterexample :
    ImageCache.Get
      (ImageCache.cleanup ((ImageCache.Store (fun _ => none) "cafe" "img" "jpeg" 0).1)
        (30 * goMinute)) "cafe" = some ⟨"img", "jpeg", 0⟩ ∧
    (31 * goMinute : Int) - 0 > 30 * goMinute := by
  exact ⟨by decide, by decide⟩

/-- C3 (amended): `Store(p, m)` returns an id under which `Get` returns
exactly `(p, m)` with the creation time; the entry survives every sweep
run while its age is at most 30 minutes, and every `Store`/`Delete` of a
different id; a sweep run once the age exceeds 30 minutes removes it (so
the entry dies at explicit deletion or at the first sweep after
expiry — possibly up to one tick after the 30-minute mark, since `Get`
itself never checks age). -/
theorem store_get_roundtrip_until_sweep (c : ImageCache) (id p m : String) (t : Int) :
    ImageCache.Get (ImageCache.Store c id p m t).1 id = some ⟨p, m, t⟩ ∧
    (∀ t2, t2 - t ≤ 30 * goMinute →
      ImageCache.Get (ImageCache.cleanup (ImageCache.Store c id p m t).1 t2) id
        = some ⟨p, m, t⟩) ∧
    (∀ t2, t2 - t > 30 * goMinute →
      ImageCache.Get (ImageCache.cleanup (ImageCache.Store c id p m t).1 t2) id = none) ∧
    (∀ (c2 : ImageCache) (id2 p2 m2 : String) (t2 : Int), id ≠ id2 →
      ImageCache.Get (ImageCache.Store c2 id2 p2 m2 t2).1 id = ImageCache.Get c2 id) ∧
    (∀ (c2 : ImageCache) (id2 : String), id ≠ id2 →
      ImageCache.Get (ImageCache.Delete c2 id2).1 id = ImageCache.Get c2 id) := by
  have hget : ImageCache.Get (ImageCache.Store c id p m t).1 id = some ⟨p, m, t⟩ := by
    show (if id = id then some (⟨p, m, t⟩ : CacheEntry) else c id) = some ⟨p, m, t⟩
    rw [if_pos rfl]
  refine ⟨hget, fun t2 h2 => ?_, fun t2 h2 => ?_, fun c2 id2 p2 m2 t2 hne => ?_,
    fun c2 id2 hne => ?_⟩
  · show (match (ImageCache.Store c id p m t).1 id with
      | some entry => if t2 - entry.CreatedAt > 30 * goMinute then none else some entry
      | none => none) = some ⟨p, m, t⟩
    rw [show (ImageCache.Store c id p m t).1 id = some ⟨p, m, t⟩ from hget]
    simp [not_lt.mpr h2]
  · show (match (ImageCache.Store c id p m t).1 id with
      | some entry => if t2 - entry.CreatedAt > 30 * goMinute then none else some entry
      | none => none) = none
    rw [show (ImageCache.Store c id p m t).1 id = some ⟨p, m, t⟩ from hget]
    simp [h2]
  · show (if id = id2 then some (⟨p2, m2, t2⟩ : CacheEntry) else c2 id) = c2 id
    rw [if_neg hne]
  · show ImageCache.Get (ImageCache.Delete c2 id2).1 id = ImageCache.Get c2 id
    unfold ImageCache.Delete
    cases h : c2 id2 with
    | some e =>
      show (if id = id2 then none else c2 id) = c2 id
      rw [if_neg hne]
    | none => rfl

/-- Witness for C3 (amended): concrete roundtrip, survival of a sweep
inside the window and of operations on another id, and removal by a
sweep after the window. -/
theorem store_get_roundtrip_until_sweep_witness :
    ImageCache.Get (ImageCache.Store (fun _ => none) "a" "p" "jpeg" 0).1 "a"
      = some ⟨"p", "jpeg", 0⟩ ∧
    ImageCache.Get
      (ImageCache.cleanup (ImageCache.Store (fun _ => none) "a" "p" "jpeg" 0).1
        (30 * goMinute)) "a" = some ⟨"p", "jpeg", 0⟩ ∧
    ImageCache.Get
      (ImageCache.cleanup (ImageCache.Store (fun _ => none) "a" "p" "jpeg" 0).1
        (35 * goMinute)) "a" = none ∧
    ImageCache.Get
      (ImageCache.Store (ImageCache.Store (fun _ => none) "a" "p" "jpeg" 0).1 "b" "q" "png" 7).1
        "a" = ImageCache.Get (ImageCache.Store (fun _ => none) "a" "p" "jpeg" 0).1 "a" ∧
    ImageCache.Get
      (ImageCache.Delete (ImageCache.Store (fun _ => none) "a" "p" "jpeg" 0).1 "b").1 "a"
      = ImageCache.Get (ImageCache.Store (fun _ => none) "a" "p" "jpeg" 0).1 "a" :=
  ⟨(store_get_roundtrip_until_sweep (fun _ => none) "a" "p" "jpeg" 0).1,
   (store_get_roundtrip_until_sweep (fun _ => none) "a" "p" "jpeg" 0).2.1
     (30 * goMinute) (by decide),
   (store_get_roundtrip_until_sweep (fun _ => none) "a" "p" "jpeg" 0).2.2.1
     (35 * goMinute) (by decide),
   (store_get_roundtrip_until_sweep (fun _ => none) "a" "p" "jpeg" 0).2.2.2.1
     (ImageCache.Store (fun _ => none) "a" "p" "jpeg" 0).1 "b" "q" "png" 7 (by decide),
   (store_get_roundtrip_until_sweep (fun _ => none) "a" "p" "jpeg" 0).2.2.2.2
     (ImageCache.Store (fun _ => none) "a" "p" "jpeg" 0).1 "b" (by decide)⟩

/-- C5: for an id just returned by `Store`, the first `Delete` returns
`true`; afterwards `Get` returns not-found and a second `Delete` returns
`false` leaving the cache exactly as it was; and in general `Delete` of
an id absent from the cache returns `false` with the cache state
unchanged, so `Delete` (and hence the clear-cache endpoint) is
idempotent and safe after expiry. -/
theorem delete_true_once_then_false (c : ImageCache) (id p m : String) (t : Int) :
    ((ImageCache.Delete (ImageCache.Store c id p m t).1 (ImageCache.Store c id p m t).2).2
        = true ∧
     ImageCache.Get
        (ImageCache.Delete (ImageCache.Store c id p m t).1
          (ImageCache.Store c id p m t).2).1 (ImageCache.Store c id p m t).2 = none ∧
     ImageCache.Delete
        (ImageCache.Delete (ImageCache.Store c id p m t).1
          (ImageCache.Store c id p m t).2).1 (ImageCache.Store c id p m t).2
        = ((ImageCache.Delete (ImageCache.Store c id p m t).1
            (ImageCache.Store c id p m t).2).1, false)) ∧
    (∀ (c2 : ImageCache) (id2 : String), ImageCache.Get c2 id2 = none →
      ImageCache.Delete c2 id2 = (c2, false)) := by
  have hstore : (ImageCache.Store c id p m t).1 (ImageCache.Store c id p m t).2
      = some ⟨p, m, t⟩ := by
    show (if id = id then some (⟨p, m, t⟩ : CacheEntry) else c id) = some ⟨p, m, t⟩
    rw [if_pos rfl]
  have habsent : ∀ (c2 : ImageCache) (id2 : String), c2 id2 = none →
      ImageCache.Delete c2 id2 = (c2, false) := by
    intro c2 id2 h2
    unfold ImageCache.Delete
    rw [h2]
  have hdel : ImageCache.Delete (ImageCache.Store c id p m t).1
      (ImageCache.Store c id p m t).2
      = (fun k => if k = (ImageCache.Store c id p m t).2 then none
          else (ImageCache.Store c id p m t).1 k, true) := by
    unfold ImageCache.Delete
    rw [hstore]
  have hgone : (ImageCache.Delete (ImageCache.Store c id p m t).1
      (ImageCache.Store c id p m t).2).1 (ImageCache.Store c id p m t).2 = none := by
    rw [hdel]
    exact if_pos rfl
  exact ⟨⟨by rw [hdel], hgone, habsent _ _ hgone⟩, habsent⟩

/-- Witness for C5: the general absent-id part applied to the concrete
empty cache (the stored-id part has no hypotheses and is exercised at an
empty cache and a concrete id). -/
theorem delete_true_once_then_false_witness :
    (ImageCache.Delete
      (ImageCache.Store (fun _ => none) "a" "p" "jpeg" 0).1
      (ImageCache.Store (fun _ => none) "a" "p" "jpeg" 0).2).2 = true ∧
    ImageCache.Delete (fun _ => none) "ghost" = ((fun _ => none : ImageCache), false) :=
  ⟨(delete_true_once_then_false (fun _ => none) "a" "p" "jpeg" 0).1.1,
   (delete_true_once_then_false (fun _ => none) "a" "p" "jpeg" 0).2
     (fun _ => none) "ghost" (by decide)⟩

/-- Helper: `cutAfterComma` on a list whose head segment is comma-free
followed by a comma returns everything past that comma. -/
theorem cutAfterComma_append_comma (pre rest : List Char) (h : ',' ∉ pre) :
    cutAfterComma (pre ++ ',' :: rest) = some rest := by
  induction pre with
  | nil => simp [cutAfterComma]
  | cons c cs ih =>
    have hc : ¬(c = ',') := fun hc => h (hc ▸ List.mem_cons_self c cs)
    have hcs : ',' ∉ cs := fun hm => h (List.mem_cons_of_mem c hm)
    simp only [List.cons_append, cutAfterComma]
    rw [if_neg hc]
    exact ih hcs

/-- Helper: `cutAfterComma` on a comma-free list finds nothing. -/
theorem cutAfterComma_of_not_mem (cs : List Char) (h : ',' ∉ cs) :
    cutAfterComma cs = none := by
  induction cs with
  | nil => rfl
  | cons c cs ih =>
    have hc : ¬(c = ',') := fun hc => h (hc ▸ List.mem_cons_self c cs)
    have hcs : ',' ∉ cs := fun hm => h (List.mem_cons_of_mem c hm)
    simp only [cutAfterComma]
    rw [if_neg hc, ih hcs]

/-- C10: the base64 decode helper discards everything up to and
including the first comma when the input contains one — whether or not
the discarded part is a data-URI header — and decodes the remainder;
an input without a comma is decoded as-is. -/
theorem decodeBase64Image_comma_cut :
    (∀ pre rest : List Char, ',' ∉ pre →
      decodeBase64ImageL (pre ++ ',' :: rest) = stdBase64DecodeL rest) ∧
    (∀ cs : List Char, ',' ∉ cs → decodeBase64ImageL cs = stdBase64DecodeL cs) := by
  constructor
  · intro pre rest h
    unfold decodeBase64ImageL
    rw [cutAfterComma_append_comma pre rest h]
  · intro cs h
    unfold decodeBase64ImageL
    rw [cutAfterComma_of_not_mem cs h]

/-- Witness for C10: a non-data-URI segment before the comma is also
discarded (`"hello"` is not a data-URI header but is dropped all the
same), and a comma-free input decodes as-is. -/
theorem decodeBase64Image_comma_cut_witness :
    decodeBase64ImageL ("hello".data ++ ',' :: "AAAA".data) = stdBase64DecodeL "AAAA".data ∧
    decodeBase64ImageL "AAAA".data = stdBase64DecodeL "AAAA".data :=
  ⟨decodeBase64Image_comma_cut.1 "hello".data "AAAA".data (by decide),
   decodeBase64Image_comma_cut.2 "AAAA".data (by decide)⟩

/-- C8 counterexample: a data-URI header is NOT stripped on every
provider-client operation. `decodeBase64Image` (used by analyze,
refine-analysis, cutout, avatar) strips it, but virtual try-on decodes
the avatar payload with raw std base64: the very same payload that
decodes fine without the header makes the try-on fail, so the prefixed
payload does not decode to the same bytes there. (The collage path
likewise raw-decodes each item.) -/
theorem dataURI_stripping_counterexample :
    decodeBase64Image "data:image/jpeg;base64,AAAA" = some [0, 0, 0] ∧
    GeminiService.VirtualTryOn "data:image/jpeg;base64,AAAA" []
      (Except.ok ⟨[⟨[RespPart.blob ⟨[1]⟩]⟩]⟩) = Except.error "failed to decode avatar" ∧
    GeminiService.VirtualTryOn "AAAA" []
      (Except.ok ⟨[⟨[RespPart.blob ⟨[1]⟩]⟩]⟩) = Except.ok "AQ==" ∧
    GeminiService.GenerateCollage ["data:image/jpeg;base64,AAAA"]
      (Except.ok ⟨[⟨[RespPart.blob ⟨[1]⟩]⟩]⟩) = Except.error "no valid images provided" := by
  exact ⟨by decide, by rfl, by rfl, by rfl⟩

/-- C8 (amended): operations that decode through `decodeBase64Image`
(analyze, refine-analysis, wardrobe match, cutout, avatar) strip an
optional data-URI header, so there a prefixed payload behaves exactly
like the bare payload; collage and virtual try-on decode raw std base64
without stripping, so there an undecodable (e.g. prefixed) payload is
respectively skipped (failing the at-least-one-image requirement when no
other item decodes) or a decode error. -/
theorem dataURI_stripping_scope (header rest : List Char)
    (hh : ',' ∉ header) (hr : ',' ∉ rest) :
    decodeBase64ImageL (header ++ ',' :: rest) = decodeBase64ImageL rest ∧
    (∀ providerResp,
      GeminiService.GenerateCutout (String.mk (header ++ ',' :: rest)) providerResp
        = GeminiService.GenerateCutout (String.mk rest) providerResp) ∧
    (∀ (providerResp : Except String GenResponse)
        (jsonParse : String → Option ClothingAnalysis),
      GeminiService.AnalyzeClothing (String.mk (header ++ ',' :: rest)) providerResp jsonParse
        = GeminiService.AnalyzeClothing (String.mk rest) providerResp jsonParse) ∧
    (∀ (s : String) (imgs : List String) (resp : Except String GenResponse),
      stdBase64Decode s = none →
      GeminiService.VirtualTryOn s imgs resp = Except.error "failed to decode avatar") ∧
    (∀ (s : String) (resp : Except String GenResponse),
      stdBase64Decode s = none →
      GeminiService.GenerateCollage [s] resp = Except.error "no valid images provided") := by
  have hdec : decodeBase64ImageL (header ++ ',' :: rest) = decodeBase64ImageL rest := by
    unfold decodeBase64ImageL
    rw [cutAfterComma_append_comma header rest hh, cutAfterComma_of_not_mem rest hr]
  have hdecS : decodeBase64Image (String.mk (header ++ ',' :: rest))
      = decodeBase64Image (String.mk rest) := by
    show decodeBase64ImageL (header ++ ',' :: rest) = decodeBase64ImageL rest
    exact hdec
  refine ⟨hdec, fun providerResp => ?_, fun providerResp jsonParse => ?_,
    fun s imgs resp hs => ?_, fun s resp hs => ?_⟩
  · unfold GeminiService.GenerateCutout
    rw [hdecS]
  · unfold GeminiService.AnalyzeClothing
    rw [hdecS]
  · unfold GeminiService.VirtualTryOn
    rw [hs]
  · unfold GeminiService.GenerateCollage
    simp [hs]

/-- Witness for C8 (amended): a concrete data-URI header in front of a
concrete base64 body, and the concrete prefixed payload on the raw
paths. -/
theorem dataURI_stripping_scope_witness :
    decodeBase64ImageL ("data:image/jpeg;base64".data ++ ',' :: "AAAA".data)
      = decodeBase64ImageL "AAAA".data ∧
    GeminiService.GenerateCutout (String.mk ("data:image/jpeg;base64".data ++ ',' :: "AAAA".data))
      (Except.error "down")
      = GeminiService.GenerateCutout (String.mk "AAAA".data) (Except.error "down") ∧
    GeminiService.VirtualTryOn "data:image/jpeg;base64,AAAA" [] (Except.error "down")
      = Except.error "failed to decode avatar" :=
  ⟨(dataURI_stripping_scope "data:image/jpeg;base64".data "AAAA".data
      (by decide) (by decide)).1,
   (dataURI_stripping_scope "data:image/jpeg;base64".data "AAAA".data
      (by decide) (by decide)).2.1 (Except.error "down"),
   (dataURI_stripping_scope "data:image/jpeg;base64".data "AAAA".data
      (by decide) (by decide)).2.2.2.1 "data:image/jpeg;base64,AAAA" [] (Except.error "down")
      (by decide)⟩

/-- C6: with the provider configured, a refine-analysis whose provider
call errors (or times out), or whose structured output fails to parse,
returns exactly the result a plain analysis of the same image would
return (itself driven by its own provider call): the caller never
receives the refine call's provider failure. -/
theorem refine_analysis_falls_back (image feedback : String)
    (refineResp analyzeResp : Except String GenResponse)
    (jsonParse : String → Option ClothingAnalysis) (bs : List Nat)
    (hdec : decodeBase64Image image = some bs) :
    (∀ e, refineResp = Except.error e →
      GeminiService.RefineClothingAnalysis image feedback refineResp analyzeResp jsonParse
        = GeminiService.AnalyzeClothing image analyzeResp jsonParse) ∧
    (∀ resp cand tl, refineResp = Except.ok resp → resp.Candidates = cand :: tl →
      jsonParse (cleanJSONResponse (extractTextFromParts cand.Parts)) = none →
      GeminiService.RefineClothingAnalysis image feedback refineResp analyzeResp jsonParse
        = GeminiService.AnalyzeClothing image analyzeResp jsonParse) := by
  constructor
  · intro e he
    unfold GeminiService.RefineClothingAnalysis
    rw [hdec, he]
  · intro resp cand tl hok hcand hparse
    subst hok
    obtain ⟨cands⟩ := resp
    have hc2 : cands = cand :: tl := hcand
    subst hc2
    unfold GeminiService.RefineClothingAnalysis
    rw [hdec]
    simp [hparse]

/-- Witness for C6: a decodable image with a failing refine call, and
the same with a successful refine call whose output does not parse. -/
theorem refine_analysis_falls_back_witness :
    GeminiService.RefineClothingAnalysis "AAAA" "less formal" (Except.error "deadline exceeded")
      (Except.error "deadline exceeded") (fun _ => none)
      = GeminiService.AnalyzeClothing "AAAA" (Except.error "deadline exceeded") (fun _ => none) ∧
    GeminiService.RefineClothingAnalysis "AAAA" "less formal"
      (Except.ok ⟨[⟨[RespPart.text "not json"]⟩]⟩) (Except.error "deadline exceeded")
      (fun _ => none)
      = GeminiService.AnalyzeClothing "AAAA" (Except.error "deadline exceeded") (fun _ => none) :=
  ⟨(refine_analysis_falls_back "AAAA" "less formal" (Except.error "deadline exceeded")
      (Except.error "deadline exceeded") (fun _ => none) [0, 0, 0] (by decide)).1
      "deadline exceeded" rfl,
   (refine_analysis_falls_back "AAAA" "less formal"
      (Except.ok ⟨[⟨[RespPart.text "not json"]⟩]⟩) (Except.error "deadline exceeded")
      (fun _ => none) [0, 0, 0] (by decide)).2
      ⟨[⟨[RespPart.text "not json"]⟩]⟩ ⟨[RespPart.text "not json"]⟩ [] rfl rfl rfl⟩

/-- C7 (code evaluated at the failing input): the extraction helper and
the plain-analysis path do classify a nil response, an empty candidate
list and a missing binary part as hard errors; but the refine-analysis
path, on a SUCCESSFUL provider response with zero candidates, indexes
`resp.Candidates[0]` without a length check and panics (index out of
range) instead of returning an error. -/
theorem refine_analysis_empty_candidates_fault :
    extractImageFromResponse none = Except.error "no response from AI" ∧
    extractImageFromResponse (some ⟨[]⟩) = Except.error "no response from AI" ∧
    extractImageFromResponse (some ⟨[⟨[RespPart.text "t"]⟩]⟩)
      = Except.error "no image generated" ∧
    GeminiService.AnalyzeClothing "AAAA" (Except.ok ⟨[]⟩) (fun _ => none)
      = GoResult.err "no response from AI" ∧
    GeminiService.RefineClothingAnalysis "AAAA" "feedback" (Except.ok ⟨[]⟩)
      (Except.error "unused") (fun _ => none) = GoResult.panicked "index out of range" := by
  exact ⟨rfl, rfl, rfl, by rfl, by rfl⟩

example : stdBase64Decode "AAAA" = some [0, 0, 0] := by decide

example : stdBase64Decode "data:image/jpeg;base64,AAAA" = none := by decide

example : decodeBase64Image "data:image/jpeg;base64,AAAA" = some [0, 0, 0] := by decide

example : stdBase64Encode [1] = "AQ==" := by decide

example : stdBase64Decode "!!!" = none := by decide

/-- C1: in a generate-cutout request with the provider configured, where
the original has been staged in the cache and the provider call then
fails (error or timeout — both are an `error` return from the client),
the just-minted cache entry is deleted before the handler returns (`Get`
on that id afterwards is not-found) and the caller receives a 500
server-side error response, which carries no cache id (so never a
partial success). -/
theorem generate_cutout_rolls_back_on_provider_failure
    (cache : ImageCache) (freshID : String) (now : Int) (e : String)
    (imageBase64 mimeType : String) (bs : List Nat)
    (hdec : decodeBase64Image imageBase64 = some bs) :
    ImageCache.Get
      (AIHandler.GenerateCutout cache freshID now true (Except.error e)
        imageBase64 mimeType).cache freshID = none ∧
    (AIHandler.GenerateCutout cache freshID now true (Except.error e)
        imageBase64 mimeType).response
      = GenerateCutoutResponse.serverError ("failed to generate cutout: " ++ e) ∧
    (AIHandler.GenerateCutout cache freshID now true (Except.error e)
        imageBase64 mimeType).response.status = 500 ∧
    (AIHandler.GenerateCutout cache freshID now true (Except.error e)
        imageBase64 mimeType).providerCalled = true := by
  have hsvc : GeminiService.GenerateCutout imageBase64 (Except.error e)
      = (Except.error ("failed to generate cutout: " ++ e), true) := by
    unfold GeminiService.GenerateCutout
    rw [hdec]
  have hrun : AIHandler.GenerateCutout cache freshID now true (Except.error e)
      imageBase64 mimeType
      = ⟨GenerateCutoutResponse.serverError ("failed to generate cutout: " ++ e),
         (ImageCache.Delete (ImageCache.Store cache freshID imageBase64 mimeType now).1
           freshID).1, true⟩ := by
    unfold AIHandler.GenerateCutout
    rw [hsvc]
    rfl
  have hstore : (ImageCache.Store cache freshID imageBase64 mimeType now).1 freshID
      = some ⟨imageBase64, mimeType, now⟩ := by
    show (if freshID = freshID then some (⟨imageBase64, mimeType, now⟩ : CacheEntry)
        else cache freshID) = some ⟨imageBase64, mimeType, now⟩
    rw [if_pos rfl]
  have hgone : ImageCache.Get
      (ImageCache.Delete (ImageCache.Store cache freshID imageBase64 mimeType now).1
        freshID).1 freshID = none := by
    unfold ImageCache.Delete
    rw [hstore]
    show (if freshID = freshID then none
        else (ImageCache.Store cache freshID imageBase64 mimeType now).1 freshID) = none
    rw [if_pos rfl]
  rw [hrun]
  exact ⟨hgone, rfl, rfl, rfl⟩

/-- Witness for C1: empty cache, decodable original, provider error. -/
theorem generate_cutout_rolls_back_on_provider_failure_witness :
    decodeBase64Image "AAAA" = some [0, 0, 0] ∧
    (ImageCache.Get
      (AIHandler.GenerateCutout (fun _ => none) "fid" 0 true (Except.error "deadline")
        "AAAA" "jpeg").cache "fid" = none ∧
     (AIHandler.GenerateCutout (fun _ => none) "fid" 0 true (Except.error "deadline")
        "AAAA" "jpeg").response
       = GenerateCutoutResponse.serverError ("failed to generate cutout: " ++ "deadline") ∧
     (AIHandler.GenerateCutout (fun _ => none) "fid" 0 true (Except.error "deadline")
        "AAAA" "jpeg").response.status = 500 ∧
     (AIHandler.GenerateCutout (fun _ => none) "fid" 0 true (Except.error "deadline")
        "AAAA" "jpeg").providerCalled = true) :=
  ⟨by decide,
   generate_cutout_rolls_back_on_provider_failure (fun _ => none) "fid" 0 "deadline"
     "AAAA" "jpeg" [0, 0, 0] (by decide)⟩

/-- C2: a refine-cutout request with an unknown or expired cache id
fails immediately with a 400 session-expired response instructing the
caller to regenerate, without calling the provider and without mutating
the cache; with the id present and the provider call succeeding, the
response carries the new output image together with the very cache id
that was supplied. -/
theorem refine_cutout_session_protocol (cache : ImageCache) (configured : Bool)
    (refineOutcome : Except String String)
    (cacheID currentCutout feedback mimeType : String) :
    (ImageCache.Get cache cacheID = none →
      (AIHandler.RefineCutout cache configured refineOutcome cacheID currentCutout
          feedback mimeType).response
        = RefineCutoutResponse.cacheExpired
            "Cache expired or not found. Please regenerate from original." ∧
      (AIHandler.RefineCutout cache configured refineOutcome cacheID currentCutout
          feedback mimeType).response.status = 400 ∧
      (AIHandler.RefineCutout cache configured refineOutcome cacheID currentCutout
          feedback mimeType).cache = cache ∧
      (AIHandler.RefineCutout cache configured refineOutcome cacheID currentCutout
          feedback mimeType).providerCalled = false) ∧
    (∀ entry img, ImageCache.Get cache cacheID = some entry →
      refineOutcome = Except.ok img →
      (AIHandler.RefineCutout cache true refineOutcome cacheID currentCutout
          feedback mimeType).response
        = RefineCutoutResponse.success img cacheID "Cutout refined successfully" ∧
      (AIHandler.RefineCutout cache true refineOutcome cacheID currentCutout
          feedback mimeType).cache = cache) := by
  constructor
  · intro hmiss
    unfold AIHandler.RefineCutout
    rw [show ImageCache.Get cache cacheID = none from hmiss]
    exact ⟨rfl, rfl, rfl, rfl⟩
  · intro entry img hhit hok
    subst hok
    unfold AIHandler.RefineCutout
    rw [show ImageCache.Get cache cacheID = some entry from hhit]
    exact ⟨rfl, rfl⟩

/-- Witness for C2: miss on the empty cache; hit after a concrete store
with a successful provider outcome echoing the supplied id. -/
theorem refine_cutout_session_protocol_witness :
    ((AIHandler.RefineCutout (fun _ => none) true (Except.ok "img2") "gone" "cur" "fb"
        "jpeg").response
      = RefineCutoutResponse.cacheExpired
          "Cache expired or not found. Please regenerate from original." ∧
     (AIHandler.RefineCutout (fun _ => none) true (Except.ok "img2") "gone" "cur" "fb"
        "jpeg").response.status = 400) ∧
    ((AIHandler.RefineCutout (ImageCache.Store (fun _ => none) "sid" "orig" "jpeg" 0).1
        true (Except.ok "img2") "sid" "cur" "fb" "jpeg").response
      = RefineCutoutResponse.success "img2" "sid" "Cutout refined successfully") :=
  ⟨⟨((refine_cutout_session_protocol (fun _ => none) true (Except.ok "img2") "gone" "cur"
      "fb" "jpeg").1 (by decide)).1,
    ((refine_cutout_session_protocol (fun _ => none) true (Except.ok "img2") "gone" "cur"
      "fb" "jpeg").1 (by decide)).2.1⟩,
   ((refine_cutout_session_protocol (ImageCache.Store (fun _ => none) "sid" "orig" "jpeg" 0).1
      true (Except.ok "img2") "sid" "cur" "fb" "jpeg").2 ⟨"orig", "jpeg", 0⟩ "img2"
      (by decide) rfl).1⟩

/-- C9 counterexample: a generate-cutout request whose image payload is
malformed base64 is NOT answered with a client-error classification: the
handler surfaces the decode failure through the same branch as provider
failures and returns a 500 server error. (The provider is indeed never
reached, and — because the handler stages the original BEFORE the decode
runs and deletes it again on failure — the cache ends in its prior
state, but a cache mutation does occur and the classification is
server-side, contradicting the claim.) -/
theorem cutout_decode_failure_counterexample :
    decodeBase64Image "!!!" = none ∧
    (AIHandler.GenerateCutout (fun _ => none) "fid" 0 true (Except.error "unused")
        "!!!" "jpeg").response
      = GenerateCutoutResponse.serverError "failed to decode base64 image" ∧
    (AIHandler.GenerateCutout (fun _ => none) "fid" 0 true (Except.error "unused")
        "!!!" "jpeg").response.status = 500 ∧
    (AIHandler.GenerateCutout (fun _ => none) "fid" 0 true (Except.error "unused")
        "!!!" "jpeg").providerCalled = false := by
  exact ⟨by decide, by rfl, by rfl, by rfl⟩

/-- C9 (amended): a generate-cutout request with malformed base64 never
reaches the provider; the original is staged in the cache before the
decode runs and the staged entry is deleted on the decode failure, so
for a fresh cache id the cache ends in exactly its prior state; the
failure is surfaced as a 500 server-side error (not a client error). -/
theorem cutout_decode_failure_aborts (cache : ImageCache) (freshID : String) (now : Int)
    (providerResp : Except String GenResponse) (imageBase64 mimeType : String)
    (hdec : decodeBase64Image imageBase64 = none)
    (hfresh : ImageCache.Get cache freshID = none) :
    (AIHandler.GenerateCutout cache freshID now true providerResp imageBase64
        mimeType).providerCalled = false ∧
    (AIHandler.GenerateCutout cache freshID now true providerResp imageBase64
        mimeType).response
      = GenerateCutoutResponse.serverError "failed to decode base64 image" ∧
    (AIHandler.GenerateCutout cache freshID now true providerResp imageBase64
        mimeType).response.status = 500 ∧
    (AIHandler.GenerateCutout cache freshID now true providerResp imageBase64
        mimeType).cache = cache := by
  have hsvc : GeminiService.GenerateCutout imageBase64 providerResp
      = (Except.error "failed to decode base64 image", false) := by
    unfold GeminiService.GenerateCutout
    rw [hdec]
  have hstore : (ImageCache.Store cache freshID imageBase64 mimeType now).1 freshID
      = some ⟨imageBase64, mimeType, now⟩ := by
    show (if freshID = freshID then some (⟨imageBase64, mimeType, now⟩ : CacheEntry)
        else cache freshID) = some ⟨imageBase64, mimeType, now⟩
    rw [if_pos rfl]
  have hrun : AIHandler.GenerateCutout cache freshID now true providerResp
      imageBase64 mimeType
      = ⟨GenerateCutoutResponse.serverError "failed to decode base64 image",
         (ImageCache.Delete (ImageCache.Store cache freshID imageBase64 mimeType now).1
           freshID).1, false⟩ := by
    unfold AIHandler.GenerateCutout
    rw [hsvc]
    rfl
  have hback : (ImageCache.Delete (ImageCache.Store cache freshID imageBase64 mimeType now).1
      freshID).1 = cache := by
    unfold ImageCache.Delete
    rw [hstore]
    funext k
    show (if k = freshID then none
        else (ImageCache.Store cache freshID imageBase64 mimeType now).1 k) = cache k
    by_cases hk : k = freshID
    · rw [if_pos hk, hk]
      exact (show cache freshID = none from hfresh).symm
    · rw [if_neg hk]
      show (if k = freshID then some (⟨imageBase64, mimeType, now⟩ : CacheEntry)
          else cache k) = cache k
      rw [if_neg hk]
  rw [hrun, hback]
  exact ⟨rfl, rfl, rfl, rfl⟩

/-- Witness for C9 (amended): empty cache, fresh id, malformed payload. -/
theorem cutout_decode_failure_aborts_witness :
    decodeBase64Image "!!!" = none ∧
    ((AIHandler.GenerateCutout (fun _ => none) "fid" 0 true (Except.error "unused")
        "!!!" "jpeg").providerCalled = false ∧
     (AIHandler.GenerateCutout (fun _ => none) "fid" 0 true (Except.error "unused")
        "!!!" "jpeg").response
       = GenerateCutoutResponse.serverError "failed to decode base64 image" ∧
     (AIHandler.GenerateCutout (fun _ => none) "fid" 0 true (Except.error "unused")
        "!!!" "jpeg").response.status = 500 ∧
     (AIHandler.GenerateCutout (fun _ => none) "fid" 0 true (Except.error "unused")
        "!!!" "jpeg").cache = (fun _ => none : ImageCache)) :=
  ⟨by decide,
   cutout_decode_failure_aborts (fun _ => none) "fid" 0 (Except.error "unused")
     "!!!" "jpeg" (by decide) (by decide)⟩
